import Mathlib

/-!
# Verification of the mutual-fund calculation engine (src/calculator.py)

Shallow embedding of the pure calculation engine in `src/calculator.py`.
Python floats are modelled as exact rationals (`ℚ`); the closed-form
required-return inverse, which takes an irrational n-th root, is modelled
over `ℝ`.  Python `round(x, 2)` (round-half-to-even) is modelled by
`pyRound`/`round2`.  Python `int` is `ℤ`; `x ** n` on an `int` exponent is
`zpow`.  Fallible entry points (the ones that can return an
`{"error": ...}` mapping) return `Except String _`; dictionary keys that
are only present on some paths are `Option` fields.
-/

namespace MFCalc

/-- Python `round` to the nearest integer, ties to the even integer. -/
def pyRound (x : ℚ) : ℤ :=
  if x - ⌊x⌋ = 1 / 2 then (if ⌊x⌋ % 2 = 0 then ⌊x⌋ else ⌊x⌋ + 1) else round x

/-- Python `round(x, 2)`: round to two decimal places. -/
def round2 (x : ℚ) : ℚ := (pyRound (x * 100) : ℚ) / 100

/-- The scalar part of `TAX_CONFIG` (calculator.py lines 12-15).  The
`DEBT_SLABS` table of the source is dead data: no function in
calculator.py reads it (`calculate_tax_debt` has its own `slab_rates`
mapping), so it is not modelled. -/
structure TaxConfig where
  EQUITY_LTCG_THRESHOLD : ℚ
  EQUITY_LTCG_RATE : ℚ
  EQUITY_STCG_RATE : ℚ
deriving Repr, DecidableEq

def TAX_CONFIG : TaxConfig :=
  { EQUITY_LTCG_THRESHOLD := 125000
    EQUITY_LTCG_RATE := 12.5
    EQUITY_STCG_RATE := 20.0 }

/-- Result dictionary of `calculate_tax_equity`.  The `tax_type` and
`tax_rate_applied` keys are absent from the early `gain <= 0` return, so
they are `Option` fields. -/
structure EquityTaxResult where
  gain : ℚ
  tax_applicable : Bool
  tax_type : Option String
  tax_amount : ℚ
  gain_after_tax : ℚ
  effective_tax_rate : ℚ
  holding_period_months : ℤ
  tax_rate_applied : Option ℚ
deriving Repr, DecidableEq

/-- `calculate_tax_equity` (calculator.py lines 27-78).  The `tax_type`
argument is accepted (with source default `"LTCG"`) but, exactly as in the
source, never read. -/
def calculate_tax_equity (gain : ℚ) (holding_period_months : ℤ)
    (tax_type : String) : EquityTaxResult :=
  if gain ≤ 0 then
    { gain := gain
      tax_applicable := false
      tax_type := none
      tax_amount := 0
      gain_after_tax := gain
      effective_tax_rate := 0
      holding_period_months := holding_period_months
      tax_rate_applied := none }
  else
    let is_ltcg : Bool := decide (holding_period_months > 12)
    let tax_pair : ℚ × Bool :=
      if is_ltcg then
        if gain > TAX_CONFIG.EQUITY_LTCG_THRESHOLD then
          ((gain - TAX_CONFIG.EQUITY_LTCG_THRESHOLD) * (TAX_CONFIG.EQUITY_LTCG_RATE / 100), true)
        else
          (0, false)
      else
        (gain * (TAX_CONFIG.EQUITY_STCG_RATE / 100), true)
    let tax_amount := tax_pair.1
    let gain_after_tax := gain - tax_amount
    let effective_rate := if gain > 0 then tax_amount / gain * 100 else 0
    { gain := round2 gain
      tax_applicable := tax_pair.2
      tax_type := some (if is_ltcg then "LTCG" else "STCG")
      tax_amount := round2 tax_amount
      gain_after_tax := round2 gain_after_tax
      effective_tax_rate := round2 effective_rate
      holding_period_months := holding_period_months
      tax_rate_applied := some (if is_ltcg then TAX_CONFIG.EQUITY_LTCG_RATE else TAX_CONFIG.EQUITY_STCG_RATE) }

/-- Result dictionary of `calculate_tax_debt`.  `tax_rate_applied` is
absent from the early return, so it is an `Option` field. -/
structure DebtTaxResult where
  gain : ℚ
  tax_applicable : Bool
  tax_amount : ℚ
  gain_after_tax : ℚ
  effective_tax_rate : ℚ
  tax_slab : String
  tax_rate_applied : Option ℚ
deriving Repr, DecidableEq

/-- The `slab_rates` dictionary of `calculate_tax_debt` (lines 92-99);
`none` models `investor_slab not in slab_rates`. -/
def slab_rates (s : String) : Option ℚ :=
  if s = "0%" then some 0
  else if s = "5%" then some 5
  else if s = "10%" then some 10
  else if s = "15%" then some 15
  else if s = "20%" then some 20
  else if s = "30%" then some 30
  else none

/-- `calculate_tax_debt` (calculator.py lines 81-123). -/
def calculate_tax_debt (gain : ℚ) (investor_slab : String) : DebtTaxResult :=
  if gain ≤ 0 ∨ (slab_rates investor_slab).isNone then
    { gain := gain
      tax_applicable := decide (gain > 0)
      tax_amount := 0
      gain_after_tax := gain
      effective_tax_rate := 0
      tax_slab := investor_slab
      tax_rate_applied := none }
  else
    let tax_rate := (slab_rates investor_slab).getD 0
    let tax_amount := gain * (tax_rate / 100)
    let gain_after_tax := gain - tax_amount
    { gain := round2 gain
      tax_applicable := true
      tax_amount := round2 tax_amount
      gain_after_tax := round2 gain_after_tax
      effective_tax_rate := round2 tax_rate
      tax_slab := investor_slab
      tax_rate_applied := some tax_rate }

/-- The `tax_info` sub-dictionary attached by the growth calculators: an
equity or a debt tax result depending on the fund type. -/
inductive TaxInfo where
  | equity (r : EquityTaxResult)
  | debt (r : DebtTaxResult)
deriving Repr, DecidableEq

/-- The SIP future-value formula, inlined three times in the source
(calculator.py lines 163-169, 393-398, 417-422):
`FV = P * [((1 + r)^n - 1) / r] * (1 + r)`, with the zero-rate branch
`FV = P * n`. -/
def sipFV (monthly_investment monthly_rate : ℚ) (months : ℤ) : ℚ :=
  if monthly_rate = 0 then monthly_investment * (months : ℚ)
  else monthly_investment * ((((1 + monthly_rate) ^ months - 1) / monthly_rate) * (1 + monthly_rate))

/-- Result dictionary of `calculate_sip`; the tax keys are only present
when `calculate_tax` was requested, `investor_tax_slab` only on the debt
path. -/
structure SipResult where
  maturity_amount : ℚ
  total_invested : ℚ
  gain : ℚ
  gain_percentage : ℚ
  monthly_investment : ℚ
  annual_return : ℚ
  years : ℤ
  months : ℤ
  fund_type : String
  calculate_tax : Bool
  tax_info : Option TaxInfo
  maturity_after_tax : Option ℚ
  investor_tax_slab : Option String
deriving Repr, DecidableEq

/-- `calculate_sip` (calculator.py lines 127-207).  The unused
`start_date` argument is dropped. -/
def calculate_sip (monthly_investment annual_return_rate : ℚ) (years : ℤ)
    (fund_type investor_tax_slab : String) (calculate_tax : Bool) :
    Except String SipResult :=
  if monthly_investment ≤ 0 ∨ annual_return_rate < 0 ∨ years ≤ 0 then
    .error "Invalid input values"
  else
    let monthly_rate := annual_return_rate / 12 / 100
    let months := years * 12
    let maturity_amount := sipFV monthly_investment monthly_rate months
    let total_invested := monthly_investment * (months : ℚ)
    let gain := maturity_amount - total_invested
    let gain_percentage := if total_invested > 0 then gain / total_invested * 100 else 0
    let base : SipResult :=
      { maturity_amount := round2 maturity_amount
        total_invested := round2 total_invested
        gain := round2 gain
        gain_percentage := round2 gain_percentage
        monthly_investment := monthly_investment
        annual_return := annual_return_rate
        years := years
        months := months
        fund_type := fund_type
        calculate_tax := calculate_tax
        tax_info := none
        maturity_after_tax := none
        investor_tax_slab := none }
    if calculate_tax then
      if fund_type.toLower = "equity" then
        let ti := calculate_tax_equity gain months "LTCG"
        .ok { base with
                tax_info := some (.equity ti)
                maturity_after_tax := some (round2 (total_invested + ti.gain_after_tax)) }
      else
        let ti := calculate_tax_debt gain investor_tax_slab
        .ok { base with
                tax_info := some (.debt ti)
                maturity_after_tax := some (round2 (total_invested + ti.gain_after_tax))
                investor_tax_slab := some investor_tax_slab }
    else
      .ok base

/-- Result dictionary of `calculate_lumpsum`. -/
structure LumpsumResult where
  maturity_amount : ℚ
  principal : ℚ
  gain : ℚ
  gain_percentage : ℚ
  annual_return : ℚ
  years : ℤ
  fund_type : String
  calculate_tax : Bool
  tax_info : Option TaxInfo
  maturity_after_tax : Option ℚ
  investor_tax_slab : Option String
deriving Repr, DecidableEq

/-- `calculate_lumpsum` (calculator.py lines 210-274).  The unused
`start_date` argument is dropped. -/
def calculate_lumpsum (principal annual_return_rate : ℚ) (years : ℤ)
    (fund_type investor_tax_slab : String) (calculate_tax : Bool) :
    Except String LumpsumResult :=
  if principal ≤ 0 ∨ annual_return_rate < 0 ∨ years ≤ 0 then
    .error "Invalid input values"
  else
    let annual_rate := annual_return_rate / 100
    let maturity_amount := principal * (1 + annual_rate) ^ years
    let gain := maturity_amount - principal
    let gain_percentage := if principal > 0 then gain / principal * 100 else 0
    let base : LumpsumResult :=
      { maturity_amount := round2 maturity_amount
        principal := round2 principal
        gain := round2 gain
        gain_percentage := round2 gain_percentage
        annual_return := annual_return_rate
        years := years
        fund_type := fund_type
        calculate_tax := calculate_tax
        tax_info := none
        maturity_after_tax := none
        investor_tax_slab := none }
    if calculate_tax then
      let holding_period_months := years * 12
      if fund_type.toLower = "equity" then
        let ti := calculate_tax_equity gain holding_period_months "LTCG"
        .ok { base with
                tax_info := some (.equity ti)
                maturity_after_tax := some (round2 (principal + ti.gain_after_tax)) }
      else
        let ti := calculate_tax_debt gain investor_tax_slab
        .ok { base with
                tax_info := some (.debt ti)
                maturity_after_tax := some (round2 (principal + ti.gain_after_tax))
                investor_tax_slab := some investor_tax_slab }
    else
      .ok base

/-- Result dictionary of `compare_investments`. -/
structure ComparisonResult where
  sip : SipResult
  lumpsum : LumpsumResult
  difference : ℚ
  better_option : String
  total_sip_invested : ℚ
deriving Repr, DecidableEq

/-- `compare_investments` (calculator.py lines 277-329). -/
def compare_investments (monthly_sip lumpsum annual_return_rate : ℚ) (years : ℤ)
    (fund_type investor_tax_slab : String) (calculate_tax : Bool) :
    Except String ComparisonResult :=
  match calculate_sip monthly_sip annual_return_rate years fund_type investor_tax_slab calculate_tax,
        calculate_lumpsum lumpsum annual_return_rate years fund_type investor_tax_slab calculate_tax with
  | .ok sip_result, .ok lumpsum_result =>
    let total_sip_invested := monthly_sip * (years : ℚ) * 12
    let sip_maturity :=
      if calculate_tax then sip_result.maturity_after_tax.getD sip_result.maturity_amount
      else sip_result.maturity_amount
    let lumpsum_maturity :=
      if calculate_tax then lumpsum_result.maturity_after_tax.getD lumpsum_result.maturity_amount
      else lumpsum_result.maturity_amount
    .ok { sip := sip_result
          lumpsum := lumpsum_result
          difference := round2 (sip_maturity - lumpsum_maturity)
          better_option := if sip_maturity > lumpsum_maturity then "SIP" else "Lumpsum"
          total_sip_invested := round2 total_sip_invested }
  | _, _ => .error "Invalid input values"

/-- One entry of the `year_wise_data` list of the hold-period
calculators. -/
structure YearRecord where
  year : ℤ
  phase : String
  invested : ℚ
  amount : ℚ
  gain : ℚ
deriving Repr, DecidableEq

/-- Result dictionary of `calculate_sip_with_hold_period`. -/
structure SipHoldResult where
  type : String
  monthly_investment : ℚ
  investment_years : ℤ
  hold_years : ℤ
  annual_return : ℚ
  total_invested : ℚ
  maturity_after_investment : ℚ
  gain_during_investment : ℚ
  final_maturity : ℚ
  total_gain : ℚ
  total_gain_percentage : ℚ
  year_wise_data : List YearRecord
  fund_type : String
  calculate_tax : Bool
  tax_info : Option TaxInfo
  final_maturity_after_tax : Option ℚ
  investor_tax_slab : Option String
deriving Repr, DecidableEq

/-- `calculate_sip_with_hold_period` (calculator.py lines 362-479). -/
def calculate_sip_with_hold_period (monthly_investment : ℚ)
    (investment_years hold_years : ℤ) (annual_return_rate : ℚ)
    (fund_type investor_tax_slab : String) (calculate_tax : Bool) :
    Except String SipHoldResult :=
  if monthly_investment ≤ 0 ∨ investment_years ≤ 0 ∨ hold_years < 0 ∨ annual_return_rate < 0 then
    .error "Invalid input values"
  else
    let monthly_rate := annual_return_rate / 12 / 100
    let investment_months := investment_years * 12
    let maturity_after_investment := sipFV monthly_investment monthly_rate investment_months
    let total_invested := monthly_investment * (investment_months : ℚ)
    let gain_during_investment := maturity_after_investment - total_invested
    let annual_rate := annual_return_rate / 100
    let final_maturity := maturity_after_investment * (1 + annual_rate) ^ hold_years
    let total_gain := final_maturity - total_invested
    let total_gain_percentage := if total_invested > 0 then total_gain / total_invested * 100 else 0
    let investment_records := (List.range investment_years.toNat).map (fun i =>
      let year : ℤ := (i : ℤ) + 1
      let months := year * 12
      let amount := sipFV monthly_investment monthly_rate months
      let invested := monthly_investment * (months : ℚ)
      ({ year := year
         phase := "Investment"
         invested := round2 invested
         amount := round2 amount
         gain := round2 (amount - invested) } : YearRecord))
    let hold_records := (List.range hold_years.toNat).map (fun i =>
      let hold_year : ℤ := (i : ℤ) + 1
      let amount := maturity_after_investment * (1 + annual_rate) ^ hold_year
      ({ year := investment_years + hold_year
         phase := "Hold"
         invested := round2 total_invested
         amount := round2 amount
         gain := round2 (amount - total_invested) } : YearRecord))
    let base : SipHoldResult :=
      { type := "SIP"
        monthly_investment := monthly_investment
        investment_years := investment_years
        hold_years := hold_years
        annual_return := annual_return_rate
        total_invested := round2 total_invested
        maturity_after_investment := round2 maturity_after_investment
        gain_during_investment := round2 gain_during_investment
        final_maturity := round2 final_maturity
        total_gain := round2 total_gain
        total_gain_percentage := round2 total_gain_percentage
        year_wise_data := investment_records ++ hold_records
        fund_type := fund_type
        calculate_tax := calculate_tax
        tax_info := none
        final_maturity_after_tax := none
        investor_tax_slab := none }
    if calculate_tax then
      let holding_period_months := (investment_years + hold_years) * 12
      if fund_type.toLower = "equity" then
        let ti := calculate_tax_equity total_gain holding_period_months "LTCG"
        .ok { base with
                tax_info := some (.equity ti)
                final_maturity_after_tax := some (round2 (total_invested + ti.gain_after_tax)) }
      else
        let ti := calculate_tax_debt total_gain investor_tax_slab
        .ok { base with
                tax_info := some (.debt ti)
                final_maturity_after_tax := some (round2 (total_invested + ti.gain_after_tax))
                investor_tax_slab := some investor_tax_slab }
    else
      .ok base

/-- Result dictionary of `calculate_lumpsum_with_hold_period`. -/
structure LumpsumHoldResult where
  type : String
  principal : ℚ
  investment_years : ℤ
  hold_years : ℤ
  annual_return : ℚ
  total_invested : ℚ
  maturity_after_investment : ℚ
  gain_during_investment : ℚ
  final_maturity : ℚ
  total_gain : ℚ
  total_gain_percentage : ℚ
  year_wise_data : List YearRecord
  fund_type : String
  calculate_tax : Bool
  tax_info : Option TaxInfo
  final_maturity_after_tax : Option ℚ
  investor_tax_slab : Option String
deriving Repr, DecidableEq

/-- `calculate_lumpsum_with_hold_period` (calculator.py lines 482-583). -/
def calculate_lumpsum_with_hold_period (principal : ℚ)
    (investment_years hold_years : ℤ) (annual_return_rate : ℚ)
    (fund_type investor_tax_slab : String) (calculate_tax : Bool) :
    Except String LumpsumHoldResult :=
  if principal ≤ 0 ∨ investment_years ≤ 0 ∨ hold_years < 0 ∨ annual_return_rate < 0 then
    .error "Invalid input values"
  else
    let annual_rate := annual_return_rate / 100
    let maturity_after_investment := principal * (1 + annual_rate) ^ investment_years
    let gain_during_investment := maturity_after_investment - principal
    let final_maturity := maturity_after_investment * (1 + annual_rate) ^ hold_years
    let total_gain := final_maturity - principal
    let total_gain_percentage := if principal > 0 then total_gain / principal * 100 else 0
    let investment_records := (List.range investment_years.toNat).map (fun i =>
      let year : ℤ := (i : ℤ) + 1
      let amount := principal * (1 + annual_rate) ^ year
      ({ year := year
         phase := "Investment"
         invested := round2 principal
         amount := round2 amount
         gain := round2 (amount - principal) } : YearRecord))
    let hold_records := (List.range hold_years.toNat).map (fun i =>
      let hold_year : ℤ := (i : ℤ) + 1
      let amount := maturity_after_investment * (1 + annual_rate) ^ hold_year
      ({ year := investment_years + hold_year
         phase := "Hold"
         invested := round2 principal
         amount := round2 amount
         gain := round2 (amount - principal) } : YearRecord))
    let base : LumpsumHoldResult :=
      { type := "Lumpsum"
        principal := principal
        investment_years := investment_years
        hold_years := hold_years
        annual_return := annual_return_rate
        total_invested := round2 principal
        maturity_after_investment := round2 maturity_after_investment
        gain_during_investment := round2 gain_during_investment
        final_maturity := round2 final_maturity
        total_gain := round2 total_gain
        total_gain_percentage := round2 total_gain_percentage
        year_wise_data := investment_records ++ hold_records
        fund_type := fund_type
        calculate_tax := calculate_tax
        tax_info := none
        final_maturity_after_tax := none
        investor_tax_slab := none }
    if calculate_tax then
      let holding_period_months := (investment_years + hold_years) * 12
      if fund_type.toLower = "equity" then
        let ti := calculate_tax_equity total_gain holding_period_months "LTCG"
        .ok { base with
                tax_info := some (.equity ti)
                final_maturity_after_tax := some (round2 (principal + ti.gain_after_tax)) }
      else
        let ti := calculate_tax_debt total_gain investor_tax_slab
        .ok { base with
                tax_info := some (.debt ti)
                final_maturity_after_tax := some (round2 (principal + ti.gain_after_tax))
                investor_tax_slab := some investor_tax_slab }
    else
      .ok base

/-!
## The required-return inverse, over ℝ

`calculate_required_return` takes the n-th root `(target/principal) ** (1/years)`,
which is irrational in general, so this one function is embedded over `ℝ`
(with the same round-half-even output rounding, `pyRoundR`/`round2R`).
-/

open Classical in
/-- Python `round` for a real argument: nearest integer, ties to even. -/
noncomputable def pyRoundR (x : ℝ) : ℤ :=
  if x - ⌊x⌋ = 1 / 2 then (if ⌊x⌋ % 2 = 0 then ⌊x⌋ else ⌊x⌋ + 1) else round x

/-- Python `round(x, 2)` for a real argument. -/
noncomputable def round2R (x : ℝ) : ℝ := (pyRoundR (x * 100) : ℝ) / 100

/-- The closed-form inverse rate of calculator.py line 352:
`((target_amount / principal) ** (1 / years) - 1) * 100`. -/
noncomputable def required_rate (principal target_amount : ℝ) (years : ℤ) : ℝ :=
  ((target_amount / principal) ^ ((1 : ℝ) / (years : ℝ)) - 1) * 100

/-- Result dictionary of `calculate_required_return`. -/
structure RequiredReturnResult where
  required_return_percentage : ℝ
  principal : ℝ
  target_amount : ℝ
  years : ℤ

/-- `calculate_required_return` (calculator.py lines 332-359). -/
noncomputable def calculate_required_return (principal target_amount : ℝ)
    (years : ℤ) : Except String RequiredReturnResult :=
  if principal ≤ 0 ∨ target_amount ≤ principal ∨ years ≤ 0 then
    .error "Invalid input values"
  else
    .ok { required_return_percentage := round2R (required_rate principal target_amount years)
          principal := principal
          target_amount := target_amount
          years := years }

/-- The lumpsum future-value formula of calculator.py lines 240-241 over
`ℝ`, to state the round-trip with the (irrational) exact required rate:
`FV = principal * (1 + annual_return_rate / 100) ** years`. -/
noncomputable def lumpsumFVR (principal annual_return_rate : ℝ) (years : ℤ) : ℝ :=
  principal * (1 + annual_return_rate / 100) ^ years

/-!
## Rounding lemmas
-/

theorem abs_pyRound_sub (x : ℚ) : |(pyRound x : ℚ) - x| ≤ 1 / 2 := by
  unfold pyRound
  split
  · rename_i h
    split
    · have h2 : ((⌊x⌋ : ℤ) : ℚ) - x = -(1 / 2) := by linarith
      rw [h2, abs_neg, abs_of_nonneg] <;> norm_num
    · have h2 : ((⌊x⌋ + 1 : ℤ) : ℚ) - x = 1 / 2 := by push_cast; linarith
      rw [h2, abs_of_nonneg] <;> norm_num
  · rw [abs_sub_comm]
    exact abs_sub_round x

theorem abs_round2_sub (x : ℚ) : |round2 x - x| ≤ 1 / 200 := by
  unfold round2
  have h := abs_pyRound_sub (x * 100)
  have e : (pyRound (x * 100) : ℚ) / 100 - x = ((pyRound (x * 100) : ℚ) - x * 100) / 100 := by
    ring
  rw [e, abs_div, abs_of_pos (show (0 : ℚ) < 100 by norm_num)]
  rw [div_le_div_iff (by norm_num) (by norm_num)]
  linarith

/-- Rounding each side separately can move the subtraction identity by at
most one unit in the last (second decimal) place. -/
theorem round2_sub_round2 (a b : ℚ) :
    |round2 (a - b) - (round2 a - round2 b)| ≤ 1 / 100 := by
  have h1 := abs_round2_sub (a - b)
  have h2 := abs_round2_sub a
  have h3 := abs_round2_sub b
  have e : round2 (a - b) - (round2 a - round2 b)
      = ((pyRound ((a - b) * 100) - pyRound (a * 100) + pyRound (b * 100) : ℤ) : ℚ) / 100 := by
    unfold round2
    push_cast
    ring
  have hkq : |((pyRound ((a - b) * 100) - pyRound (a * 100) + pyRound (b * 100) : ℤ) : ℚ)| ≤ 3 / 2 := by
    have e2 : ((pyRound ((a - b) * 100) - pyRound (a * 100) + pyRound (b * 100) : ℤ) : ℚ)
        = (round2 (a - b) - (a - b)) * 100 - (round2 a - a) * 100 + (round2 b - b) * 100 := by
      unfold round2
      push_cast
      ring
    rw [abs_le] at h1 h2 h3 ⊢
    rw [e2]
    constructor <;> nlinarith [h1.1, h1.2, h2.1, h2.2, h3.1, h3.2]
  have hklt : |(pyRound ((a - b) * 100) - pyRound (a * 100) + pyRound (b * 100) : ℤ)| < 2 := by
    have hc : (|(pyRound ((a - b) * 100) - pyRound (a * 100) + pyRound (b * 100) : ℤ)| : ℚ) < 2 := by
      linarith
    exact_mod_cast hc
  have hk : |(pyRound ((a - b) * 100) - pyRound (a * 100) + pyRound (b * 100) : ℤ)| ≤ 1 := by
    omega
  rw [e, abs_div, abs_of_pos (show (0 : ℚ) < 100 by norm_num)]
  rw [div_le_div_iff (by norm_num) (by norm_num)]
  have : (|(pyRound ((a - b) * 100) - pyRound (a * 100) + pyRound (b * 100) : ℤ)| : ℚ) ≤ 1 := by
    exact_mod_cast hk
  linarith

/-- Auxiliary: `round2 0 = 0`. -/
theorem round2_zero : round2 0 = 0 := by
  have h0 : (0 : ℚ) * 100 = 0 := by norm_num
  unfold round2
  rw [h0]
  unfold pyRound
  rw [round_eq]
  norm_num

/-- `round2` is the identity on amounts that already have at most two
decimal places. -/
theorem round2_eq_self {x : ℚ} (h : (x * 100).den = 1) : round2 x = x := by
  have hx : ((x * 100).num : ℚ) = x * 100 := by
    rw [← Rat.den_eq_one_iff]
    exact h
  unfold round2 pyRound
  rw [← hx]
  rw [Int.floor_intCast]
  have hne : (((x * 100).num : ℚ)) - ((x * 100).num : ℚ) = 0 := by ring
  rw [if_neg (by rw [hne]; norm_num)]
  rw [round_intCast]
  rw [hx]
  ring

theorem abs_pyRoundR_sub (x : ℝ) : |(pyRoundR x : ℝ) - x| ≤ 1 / 2 := by
  unfold pyRoundR
  split
  · rename_i h
    split
    · have h2 : ((⌊x⌋ : ℤ) : ℝ) - x = -(1 / 2) := by linarith
      rw [h2, abs_neg, abs_of_nonneg] <;> norm_num
    · have h2 : ((⌊x⌋ + 1 : ℤ) : ℝ) - x = 1 / 2 := by push_cast; linarith
      rw [h2, abs_of_nonneg] <;> norm_num
  · rw [abs_sub_comm]
    exact abs_sub_round x

theorem abs_round2R_sub (x : ℝ) : |round2R x - x| ≤ 1 / 200 := by
  unfold round2R
  have h := abs_pyRoundR_sub (x * 100)
  have e : (pyRoundR (x * 100) : ℝ) / 100 - x = ((pyRoundR (x * 100) : ℝ) - x * 100) / 100 := by
    ring
  rw [e, abs_div, abs_of_pos (show (0 : ℝ) < 100 by norm_num)]
  rw [div_le_div_iff (by norm_num) (by norm_num)]
  linarith

/-!
## Claim theorems
-/

/-- C1.  For every gain > 0, `calculate_tax_equity` classifies the gain as
LTCG exactly when `holding_period_months > 12` (12 months exactly is
STCG); under LTCG the (rounded) tax amount is 12.5% of
`max 0 (gain - 125000)`, applicable exactly when the gain exceeds the
125000 threshold (so tax_amount = 0 and tax_applicable = false for
gain ≤ 125000); under STCG the tax amount is 20% of the gain and tax is
always applicable. -/
theorem equity_tax_classification (gain : ℚ) (m : ℤ) (t : String) (hg : 0 < gain) :
    (calculate_tax_equity gain m t).tax_type = some (if 12 < m then "LTCG" else "STCG")
    ∧ (12 < m →
        (calculate_tax_equity gain m t).tax_amount = round2 (12.5 / 100 * max 0 (gain - 125000))
        ∧ (gain ≤ 125000 →
            (calculate_tax_equity gain m t).tax_amount = 0
            ∧ (calculate_tax_equity gain m t).tax_applicable = false)
        ∧ (125000 < gain → (calculate_tax_equity gain m t).tax_applicable = true))
    ∧ (m ≤ 12 →
        (calculate_tax_equity gain m t).tax_amount = round2 (20 / 100 * gain)
        ∧ (calculate_tax_equity gain m t).tax_applicable = true) := by
  have hng : ¬ gain ≤ 0 := not_le.mpr hg
  simp only [calculate_tax_equity, TAX_CONFIG, if_neg hng, gt_iff_lt, decide_eq_true_eq]
  refine ⟨trivial, fun h12 => ?_, fun hle => ?_⟩
  · rw [if_pos h12]
    by_cases hgt : (125000 : ℚ) < gain
    · rw [if_pos hgt]
      refine ⟨?_, fun hle => absurd hgt (not_lt.mpr hle), fun _ => rfl⟩
      rw [sup_eq_right.mpr (by linarith : (0 : ℚ) ≤ gain - 125000)]
      congr 1
      ring
    · rw [if_neg hgt]
      rw [sup_eq_left.mpr (by linarith [not_lt.mp hgt] : gain - 125000 ≤ (0 : ℚ)), mul_zero]
      exact ⟨rfl, fun hle => ⟨round2_zero, rfl⟩, fun hlt => absurd hlt hgt⟩
  · rw [if_neg (not_lt.mpr hle)]
    refine ⟨?_, rfl⟩
    congr 1
    ring

/-- C1 witness: the STCG boundary case of the spec, `taxEquity(100000, 12)`
is classified STCG with 20% tax. -/
theorem equity_tax_classification_witness :
    (calculate_tax_equity 100000 12 "LTCG").tax_amount = round2 (20 / 100 * 100000)
    ∧ (calculate_tax_equity 100000 12 "LTCG").tax_applicable = true :=
  (equity_tax_classification 100000 12 "LTCG" (by norm_num)).2.2 (by norm_num)

/-- C2 counterexample: on the out-of-set slab `"7%"` and a positive gain,
`calculate_tax_debt` does not report any error: it silently returns a
fully-formed zero-tax result (with `tax_applicable = true` and the gain
passed through untaxed).  The claimed `InvalidInput` report does not
exist: the function is total on slabs and has no error channel at all. -/
theorem debt_unknown_slab_cex :
    calculate_tax_debt 100000 "7%"
      = { gain := 100000
          tax_applicable := true
          tax_amount := 0
          gain_after_tax := 100000
          effective_tax_rate := 0
          tax_slab := "7%"
          tax_rate_applied := none } := by decide

/-- C2 amended: for every gain and every slab string outside the
enumerated set, `calculate_tax_debt` silently defaults to a zero-tax
outcome — `tax_amount = 0`, `gain_after_tax = gain`,
`tax_applicable` iff `gain > 0`, slab echoed back — rather than reporting
a validation error. -/
theorem debt_unknown_slab_silent_default (g : ℚ) (s : String)
    (h : slab_rates s = none) :
    calculate_tax_debt g s
      = { gain := g
          tax_applicable := decide (0 < g)
          tax_amount := 0
          gain_after_tax := g
          effective_tax_rate := 0
          tax_slab := s
          tax_rate_applied := none } := by
  unfold calculate_tax_debt
  rw [if_pos (Or.inr (by rw [h]; rfl))]

/-- C2 witness: the amended claim at slab `"7%"`, gain 100000. -/
theorem debt_unknown_slab_silent_default_witness :
    slab_rates "7%" = none
    ∧ calculate_tax_debt 100000 "7%"
        = { gain := 100000
            tax_applicable := decide ((0 : ℚ) < 100000)
            tax_amount := 0
            gain_after_tax := 100000
            effective_tax_rate := 0
            tax_slab := "7%"
            tax_rate_applied := none } :=
  ⟨by decide, debt_unknown_slab_silent_default 100000 "7%" (by decide)⟩

/-- C3 counterexample: at gain = 125000 + 1/64 (a long-term equity gain
just over the LTCG threshold) the rounded output fields of
`calculate_tax_equity` violate `gain_after_tax = gain - tax_amount`
exactly: the fields round to 125000.01, 125000.02 and 0 respectively. -/
theorem rounded_identity_cex :
    (calculate_tax_equity (125000 + 1 / 64) 24 "LTCG").gain_after_tax
      ≠ (calculate_tax_equity (125000 + 1 / 64) 24 "LTCG").gain
        - (calculate_tax_equity (125000 + 1 / 64) 24 "LTCG").tax_amount := by
  have e1 : round2 ((64000007 : ℚ) / 512) = 12500001 / 100 := by
    unfold round2 pyRound
    rw [round_eq]
    norm_num
  have e2 : round2 ((8000001 : ℚ) / 64) = 12500002 / 100 := by
    unfold round2 pyRound
    rw [round_eq]
    norm_num
  have e3 : round2 ((1 : ℚ) / 512) = 0 := by
    unfold round2 pyRound
    rw [round_eq]
    norm_num
  simp only [calculate_tax_equity, TAX_CONFIG]
  norm_num
  rw [e1, e2, e3]
  norm_num

/-- C4.  A non-positive gain is passed through both tax calculators
unchanged: zero tax, not applicable, `gain_after_tax = gain`, for every
holding period and every slab. -/
theorem loss_passthrough (g : ℚ) (m : ℤ) (t slab : String) (hg : g ≤ 0) :
    ((calculate_tax_equity g m t).tax_amount = 0
      ∧ (calculate_tax_equity g m t).tax_applicable = false
      ∧ (calculate_tax_equity g m t).gain_after_tax = g)
    ∧ ((calculate_tax_debt g slab).tax_amount = 0
      ∧ (calculate_tax_debt g slab).tax_applicable = false
      ∧ (calculate_tax_debt g slab).gain_after_tax = g) := by
  constructor
  · unfold calculate_tax_equity
    rw [if_pos hg]
    exact ⟨rfl, rfl, rfl⟩
  · unfold calculate_tax_debt
    rw [if_pos (Or.inl hg)]
    refine ⟨rfl, ?_, rfl⟩
    simp [not_lt.mpr hg]

/-- C4 witness: the loss pass-through case of the spec, `taxEquity(-5000, 24)`
and the debt calculator at the same loss. -/
theorem loss_passthrough_witness :
    (((calculate_tax_equity (-5000) 24 "LTCG").tax_amount = 0
      ∧ (calculate_tax_equity (-5000) 24 "LTCG").tax_applicable = false
      ∧ (calculate_tax_equity (-5000) 24 "LTCG").gain_after_tax = -5000)
    ∧ ((calculate_tax_debt (-5000) "30%").tax_amount = 0
      ∧ (calculate_tax_debt (-5000) "30%").tax_applicable = false
      ∧ (calculate_tax_debt (-5000) "30%").gain_after_tax = -5000)) :=
  loss_passthrough (-5000) 24 "LTCG" "30%" (by norm_num)

/-- C3 amended: for every successfully computed result of the growth and
tax operations, the identities `gain = maturity_amount - total_invested`
and `gain_after_tax = gain - tax_amount` hold exactly on the pre-rounding
values, so the independently rounded output fields satisfy them to within
one unit in the last place (|difference| ≤ 0.01) — but not always exactly
(see the counterexample). -/
theorem rounding_identity_within_cent :
    (∀ (g : ℚ) (m : ℤ) (t : String),
        |(calculate_tax_equity g m t).gain_after_tax
          - ((calculate_tax_equity g m t).gain - (calculate_tax_equity g m t).tax_amount)|
          ≤ 1 / 100)
    ∧ (∀ (g : ℚ) (s : String),
        |(calculate_tax_debt g s).gain_after_tax
          - ((calculate_tax_debt g s).gain - (calculate_tax_debt g s).tax_amount)|
          ≤ 1 / 100)
    ∧ (∀ (c r : ℚ) (y : ℤ) (f s : String) (ct : Bool), 0 < c → 0 ≤ r → 0 < y →
        ∃ res, calculate_sip c r y f s ct = .ok res
          ∧ |res.gain - (res.maturity_amount - res.total_invested)| ≤ 1 / 100)
    ∧ (∀ (p r : ℚ) (y : ℤ) (f s : String) (ct : Bool), 0 < p → 0 ≤ r → 0 < y →
        ∃ res, calculate_lumpsum p r y f s ct = .ok res
          ∧ |res.gain - (res.maturity_amount - res.principal)| ≤ 1 / 100) := by
  refine ⟨fun g m t => ?_, fun g s => ?_, fun c r y f s ct hc hr hy => ?_,
    fun p r y f s ct hp hr hy => ?_⟩
  · by_cases hg : g ≤ 0
    · simp only [calculate_tax_equity, if_pos hg]
      norm_num
    · simp only [calculate_tax_equity, if_neg hg]
      exact round2_sub_round2 g _
  · by_cases hcond : g ≤ 0 ∨ (slab_rates s).isNone = true
    · simp only [calculate_tax_debt, if_pos hcond]
      norm_num
    · simp only [calculate_tax_debt, if_neg hcond]
      exact round2_sub_round2 g _
  · have h0 : ¬(c ≤ 0 ∨ r < 0 ∨ y ≤ 0) := by
      push_neg
      exact ⟨hc, hr, hy⟩
    simp only [calculate_sip, if_neg h0]
    split
    · split
      · exact ⟨_, rfl, round2_sub_round2 _ _⟩
      · exact ⟨_, rfl, round2_sub_round2 _ _⟩
    · exact ⟨_, rfl, round2_sub_round2 _ _⟩
  · have h0 : ¬(p ≤ 0 ∨ r < 0 ∨ y ≤ 0) := by
      push_neg
      exact ⟨hp, hr, hy⟩
    simp only [calculate_lumpsum, if_neg h0]
    split
    · split
      · exact ⟨_, rfl, round2_sub_round2 _ _⟩
      · exact ⟨_, rfl, round2_sub_round2 _ _⟩
    · exact ⟨_, rfl, round2_sub_round2 _ _⟩

/-- C3 witness: the amended bound instantiated on the periodic
reference case (5000 per month, 12%, 10 years, equity, with tax). -/
theorem rounding_identity_within_cent_witness :
    ∃ res, calculate_sip 5000 12 10 "equity" "30%" true = .ok res
      ∧ |res.gain - (res.maturity_amount - res.total_invested)| ≤ 1 / 100 :=
  rounding_identity_within_cent.2.2.1 5000 12 10 "equity" "30%" true
    (by norm_num) (by norm_num) (by norm_num)

/-- C7.  With a zero annual rate, `calculate_sip` takes the zero-rate
branch of the annuity formula (the division by the monthly rate is never
evaluated) and the maturity amount is exactly the contribution times the
number of months, up to the final 2-decimal output rounding — and with no
rounding drift at all when the contribution has at most two decimals. -/
theorem sip_zero_rate (c : ℚ) (y : ℤ) (f s : String) (ct : Bool)
    (hc : 0 < c) (hy : 0 < y) :
    ∃ res, calculate_sip c 0 y f s ct = .ok res
      ∧ res.maturity_amount = round2 (c * ((y * 12 : ℤ) : ℚ))
      ∧ ((c * 100).den = 1 → res.maturity_amount = c * ((y * 12 : ℤ) : ℚ)) := by
  have h0 : ¬(c ≤ 0 ∨ (0 : ℚ) < 0 ∨ y ≤ 0) := by
    push_neg
    exact ⟨hc, le_refl 0, hy⟩
  have hexact : (c * 100).den = 1 → round2 (c * ((y * 12 : ℤ) : ℚ)) = c * ((y * 12 : ℤ) : ℚ) := by
    intro hden
    apply round2_eq_self
    have hk : ((c * 100).num : ℚ) = c * 100 := (Rat.den_eq_one_iff _).mp hden
    have e : c * ((y * 12 : ℤ) : ℚ) * 100 = (((c * 100).num * (y * 12) : ℤ) : ℚ) := by
      push_cast [hk]
      ring
    rw [e, Rat.den_intCast]
  simp only [calculate_sip, if_neg h0, sipFV, zero_div, if_pos rfl]
  split
  · split
    · exact ⟨_, rfl, rfl, fun h => hexact h⟩
    · exact ⟨_, rfl, rfl, fun h => hexact h⟩
  · exact ⟨_, rfl, rfl, fun h => hexact h⟩

/-- C7 witness: 1000 per month at 0% for 3 years matures to exactly
36000. -/
theorem sip_zero_rate_witness :
    ∃ res, calculate_sip 1000 0 3 "equity" "30%" true = .ok res
      ∧ res.maturity_amount = round2 (1000 * ((3 * 12 : ℤ) : ℚ))
      ∧ (((1000 : ℚ) * 100).den = 1 → res.maturity_amount = 1000 * ((3 * 12 : ℤ) : ℚ)) :=
  sip_zero_rate 1000 3 "equity" "30%" true (by norm_num) (by norm_num)

/-- C9.  Every InvalidInput condition of the spec (non-positive
contribution/principal, negative rate, non-positive years or
investment_years, negative hold_years, target ≤ principal) makes the
corresponding engine entry point return the structured
`.error "Invalid input values"` result (how the embedding renders the
`{"error": ...}` mapping) before any computation proceeds, and
`hold_years = 0` is accepted as valid by both phased calculators. -/
theorem invalid_input_reported :
    (∀ (c r : ℚ) (y : ℤ) (f s : String) (ct : Bool),
        (c ≤ 0 ∨ r < 0 ∨ y ≤ 0) →
        calculate_sip c r y f s ct = .error "Invalid input values")
    ∧ (∀ (p r : ℚ) (y : ℤ) (f s : String) (ct : Bool),
        (p ≤ 0 ∨ r < 0 ∨ y ≤ 0) →
        calculate_lumpsum p r y f s ct = .error "Invalid input values")
    ∧ (∀ (P T : ℝ) (y : ℤ),
        (P ≤ 0 ∨ T ≤ P ∨ y ≤ 0) →
        calculate_required_return P T y = .error "Invalid input values")
    ∧ (∀ (c : ℚ) (iy hy : ℤ) (r : ℚ) (f s : String) (ct : Bool),
        (c ≤ 0 ∨ iy ≤ 0 ∨ hy < 0 ∨ r < 0) →
        calculate_sip_with_hold_period c iy hy r f s ct = .error "Invalid input values")
    ∧ (∀ (p : ℚ) (iy hy : ℤ) (r : ℚ) (f s : String) (ct : Bool),
        (p ≤ 0 ∨ iy ≤ 0 ∨ hy < 0 ∨ r < 0) →
        calculate_lumpsum_with_hold_period p iy hy r f s ct = .error "Invalid input values")
    ∧ (∀ (ms ls r : ℚ) (y : ℤ) (f s : String) (ct : Bool),
        (ms ≤ 0 ∨ ls ≤ 0 ∨ r < 0 ∨ y ≤ 0) →
        compare_investments ms ls r y f s ct = .error "Invalid input values")
    ∧ (∀ (c : ℚ) (iy : ℤ) (r : ℚ) (f s : String) (ct : Bool),
        0 < c → 0 < iy → 0 ≤ r →
        (∃ res, calculate_sip_with_hold_period c iy 0 r f s ct = .ok res)
        ∧ ∃ res2, calculate_lumpsum_with_hold_period c iy 0 r f s ct = .ok res2) := by
  have hsip : ∀ (c r : ℚ) (y : ℤ) (f s : String) (ct : Bool),
      (c ≤ 0 ∨ r < 0 ∨ y ≤ 0) →
      calculate_sip c r y f s ct = .error "Invalid input values" := by
    intro c r y f s ct h
    unfold calculate_sip
    rw [if_pos h]
  have hlump : ∀ (p r : ℚ) (y : ℤ) (f s : String) (ct : Bool),
      (p ≤ 0 ∨ r < 0 ∨ y ≤ 0) →
      calculate_lumpsum p r y f s ct = .error "Invalid input values" := by
    intro p r y f s ct h
    unfold calculate_lumpsum
    rw [if_pos h]
  refine ⟨hsip, hlump, ?_, ?_, ?_, ?_, ?_⟩
  · intro P T y h
    unfold calculate_required_return
    rw [if_pos h]
  · intro c iy hy r f s ct h
    unfold calculate_sip_with_hold_period
    rw [if_pos h]
  · intro p iy hy r f s ct h
    unfold calculate_lumpsum_with_hold_period
    rw [if_pos h]
  · intro ms ls r y f s ct h
    rcases h with h1 | h2 | h3 | h4
    · have he := hsip ms r y f s ct (Or.inl h1)
      cases hlv : calculate_lumpsum ls r y f s ct <;>
        simp [compare_investments, he, hlv]
    · have he := hlump ls r y f s ct (Or.inl h2)
      cases hsv : calculate_sip ms r y f s ct <;>
        simp [compare_investments, he, hsv]
    · have he := hsip ms r y f s ct (Or.inr (Or.inl h3))
      cases hlv : calculate_lumpsum ls r y f s ct <;>
        simp [compare_investments, he, hlv]
    · have he := hsip ms r y f s ct (Or.inr (Or.inr h4))
      cases hlv : calculate_lumpsum ls r y f s ct <;>
        simp [compare_investments, he, hlv]
  · intro c iy r f s ct hc hiy hr
    have h0s : ¬(c ≤ 0 ∨ iy ≤ 0 ∨ (0 : ℤ) < 0 ∨ r < 0) := by
      push_neg
      exact ⟨hc, hiy, le_refl 0, hr⟩
    constructor
    · simp only [calculate_sip_with_hold_period, if_neg h0s]
      split
      · split
        · exact ⟨_, rfl⟩
        · exact ⟨_, rfl⟩
      · exact ⟨_, rfl⟩
    · simp only [calculate_lumpsum_with_hold_period, if_neg h0s]
      split
      · split
        · exact ⟨_, rfl⟩
        · exact ⟨_, rfl⟩
      · exact ⟨_, rfl⟩

/-- C5.  For every valid comparison input, `compare_investments` reports
`better_option = "SIP"` exactly when the SIP maturity strictly exceeds
the lumpsum maturity and `"Lumpsum"` otherwise (an exact tie yields
`"Lumpsum"`), where the compared maturities are the tax-adjusted
`maturity_after_tax` fields when tax was requested and the pre-tax
`maturity_amount` fields otherwise. -/
theorem comparator_better_option (ms ls r : ℚ) (y : ℤ) (f s : String) (ct : Bool)
    (hms : 0 < ms) (hls : 0 < ls) (hr : 0 ≤ r) (hy : 0 < y) :
    ∃ res, compare_investments ms ls r y f s ct = .ok res
      ∧ (ct = true →
          ∃ sm lm, res.sip.maturity_after_tax = some sm
            ∧ res.lumpsum.maturity_after_tax = some lm
            ∧ res.better_option = (if lm < sm then "SIP" else "Lumpsum"))
      ∧ (ct = false →
          res.better_option =
            (if res.lumpsum.maturity_amount < res.sip.maturity_amount
              then "SIP" else "Lumpsum")) := by
  have h0s : ¬(ms ≤ 0 ∨ r < 0 ∨ y ≤ 0) := by
    push_neg
    exact ⟨hms, hr, hy⟩
  have h0l : ¬(ls ≤ 0 ∨ r < 0 ∨ y ≤ 0) := by
    push_neg
    exact ⟨hls, hr, hy⟩
  cases ct with
  | false =>
    simp only [compare_investments, calculate_sip, calculate_lumpsum, if_neg h0s, if_neg h0l,
      Bool.false_eq_true, if_false]
    exact ⟨_, rfl, fun h => h.elim, fun _ => rfl⟩
  | true =>
    by_cases hf : f.toLower = "equity"
    · simp only [compare_investments, calculate_sip, calculate_lumpsum, if_neg h0s, if_neg h0l,
        if_pos hf, if_true]
      exact ⟨_, rfl, fun _ => ⟨_, _, rfl, rfl, rfl⟩, fun h => Bool.noConfusion h⟩
    · simp only [compare_investments, calculate_sip, calculate_lumpsum, if_neg h0s, if_neg h0l,
        if_neg hf, if_true]
      exact ⟨_, rfl, fun _ => ⟨_, _, rfl, rfl, rfl⟩, fun h => Bool.noConfusion h⟩

/-- C5 witness: the comparator reference case of the spec (5000 monthly vs
600000 lumpsum at 12% over 10 years, no tax). -/
theorem comparator_better_option_witness :
    ∃ res, compare_investments 5000 600000 12 10 "equity" "30%" false = .ok res
      ∧ (false = true →
          ∃ sm lm, res.sip.maturity_after_tax = some sm
            ∧ res.lumpsum.maturity_after_tax = some lm
            ∧ res.better_option = (if lm < sm then "SIP" else "Lumpsum"))
      ∧ (false = false →
          res.better_option =
            (if res.lumpsum.maturity_amount < res.sip.maturity_amount
              then "SIP" else "Lumpsum")) :=
  comparator_better_option 5000 600000 12 10 "equity" "30%" false
    (by norm_num) (by norm_num) (by norm_num) (by norm_num)

/-- C6.  Both phase composers apply tax exactly once, on the unrounded
total gain `final_maturity - total_invested`, and hand the tax calculator
the combined holding period `(investment_years + hold_years) * 12` months
for the equity LTCG/STCG classification — not a phase-by-phase period. -/
theorem phased_tax_once (c : ℚ) (iy hy : ℤ) (r : ℚ) (f s : String)
    (hc : 0 < c) (hiy : 0 < iy) (hhy : 0 ≤ hy) (hr : 0 ≤ r) :
    (∃ res, calculate_sip_with_hold_period c iy hy r f s true = .ok res
      ∧ res.total_invested = round2 (c * ((iy * 12 : ℤ) : ℚ))
      ∧ res.final_maturity
          = round2 (sipFV c (r / 12 / 100) (iy * 12) * (1 + r / 100) ^ hy)
      ∧ res.tax_info = some (
          if f.toLower = "equity" then
            .equity (calculate_tax_equity
              (sipFV c (r / 12 / 100) (iy * 12) * (1 + r / 100) ^ hy
                - c * ((iy * 12 : ℤ) : ℚ))
              ((iy + hy) * 12) "LTCG")
          else
            .debt (calculate_tax_debt
              (sipFV c (r / 12 / 100) (iy * 12) * (1 + r / 100) ^ hy
                - c * ((iy * 12 : ℤ) : ℚ))
              s)))
    ∧ (∃ res2, calculate_lumpsum_with_hold_period c iy hy r f s true = .ok res2
      ∧ res2.total_invested = round2 c
      ∧ res2.final_maturity
          = round2 (c * (1 + r / 100) ^ iy * (1 + r / 100) ^ hy)
      ∧ res2.tax_info = some (
          if f.toLower = "equity" then
            .equity (calculate_tax_equity
              (c * (1 + r / 100) ^ iy * (1 + r / 100) ^ hy - c) ((iy + hy) * 12) "LTCG")
          else
            .debt (calculate_tax_debt
              (c * (1 + r / 100) ^ iy * (1 + r / 100) ^ hy - c) s))) := by
  have h0 : ¬(c ≤ 0 ∨ iy ≤ 0 ∨ hy < 0 ∨ r < 0) := by
    push_neg
    exact ⟨hc, hiy, hhy, hr⟩
  constructor
  · simp only [calculate_sip_with_hold_period, if_neg h0, if_pos rfl]
    by_cases hf : f.toLower = "equity"
    · rw [if_pos hf, if_pos hf]
      exact ⟨_, rfl, rfl, rfl, rfl⟩
    · rw [if_neg hf, if_neg hf]
      exact ⟨_, rfl, rfl, rfl, rfl⟩
  · simp only [calculate_lumpsum_with_hold_period, if_neg h0, if_pos rfl]
    by_cases hf : f.toLower = "equity"
    · rw [if_pos hf, if_pos hf]
      exact ⟨_, rfl, rfl, rfl, rfl⟩
    · rw [if_neg hf, if_neg hf]
      exact ⟨_, rfl, rfl, rfl, rfl⟩

/-- C6 witness: the phased SIP and lumpsum calculators at 1000 per month
(or principal), 2 investment years, 1 hold year, 12% rate, equity. -/
theorem phased_tax_once_witness :
    (∃ res, calculate_sip_with_hold_period 1000 2 1 12 "equity" "30%" true = .ok res
      ∧ res.total_invested = round2 (1000 * ((2 * 12 : ℤ) : ℚ))
      ∧ res.final_maturity
          = round2 (sipFV 1000 (12 / 12 / 100) (2 * 12) * (1 + 12 / 100) ^ (1 : ℤ))
      ∧ res.tax_info = some (
          if ("equity" : String).toLower = "equity" then
            .equity (calculate_tax_equity
              (sipFV 1000 (12 / 12 / 100) (2 * 12) * (1 + 12 / 100) ^ (1 : ℤ)
                - 1000 * ((2 * 12 : ℤ) : ℚ))
              ((2 + 1) * 12) "LTCG")
          else
            .debt (calculate_tax_debt
              (sipFV 1000 (12 / 12 / 100) (2 * 12) * (1 + 12 / 100) ^ (1 : ℤ)
                - 1000 * ((2 * 12 : ℤ) : ℚ))
              "30%")))
    ∧ (∃ res2, calculate_lumpsum_with_hold_period 1000 2 1 12 "equity" "30%" true = .ok res2
      ∧ res2.total_invested = round2 1000
      ∧ res2.final_maturity
          = round2 (1000 * (1 + 12 / 100) ^ (2 : ℤ) * (1 + 12 / 100) ^ (1 : ℤ))
      ∧ res2.tax_info = some (
          if ("equity" : String).toLower = "equity" then
            .equity (calculate_tax_equity
              (1000 * (1 + 12 / 100) ^ (2 : ℤ) * (1 + 12 / 100) ^ (1 : ℤ) - 1000)
              ((2 + 1) * 12) "LTCG")
          else
            .debt (calculate_tax_debt
              (1000 * (1 + 12 / 100) ^ (2 : ℤ) * (1 + 12 / 100) ^ (1 : ℤ) - 1000)
              "30%"))) :=
  phased_tax_once 1000 2 1 12 "equity" "30%"
    (by norm_num) (by norm_num) (by norm_num) (by norm_num)

/-- C8.  The required-return inversion is a true inverse of lumpsum
growth: for principal P > 0, target T > P and years n > 0, plugging the
exact rate `required_rate P T n` computed by `calculate_required_return`
back into the lumpsum growth formula returns exactly T (the reported
rate field is that exact rate rounded to 2 decimals, within 1/200 of it);
and whenever target ≤ principal the calculation reports the invalid-input
error (see also C9). -/
theorem required_return_roundtrip (P T : ℝ) (n : ℤ)
    (hP : 0 < P) (hT : P < T) (hn : 0 < n) :
    lumpsumFVR P (required_rate P T n) n = T
    ∧ (∃ res, calculate_required_return P T n = .ok res
        ∧ res.required_return_percentage = round2R (required_rate P T n)
        ∧ |res.required_return_percentage - required_rate P T n| ≤ 1 / 200)
    ∧ (∀ (Q U : ℝ) (k : ℤ), U ≤ Q →
        calculate_required_return Q U k = .error "Invalid input values") := by
  refine ⟨?_, ?_, ?_⟩
  · have hTP : 0 < T / P := div_pos (lt_trans hP hT) hP
    unfold lumpsumFVR required_rate
    have h100 : ((T / P) ^ ((1 : ℝ) / (n : ℝ)) - 1) * 100 / 100
        = (T / P) ^ ((1 : ℝ) / (n : ℝ)) - 1 := by ring
    rw [h100]
    have h1p : (1 : ℝ) + ((T / P) ^ ((1 : ℝ) / (n : ℝ)) - 1)
        = (T / P) ^ ((1 : ℝ) / (n : ℝ)) := by ring
    rw [h1p]
    obtain ⟨m, rfl⟩ : ∃ m : ℕ, (m : ℤ) = n := ⟨n.toNat, Int.toNat_of_nonneg (le_of_lt hn)⟩
    have hm0 : m ≠ 0 := by
      intro h
      rw [h] at hn
      exact absurd hn (by norm_num)
    rw [zpow_natCast]
    rw [show (1 : ℝ) / ((m : ℤ) : ℝ) = ((m : ℕ) : ℝ)⁻¹ by push_cast; rw [one_div]]
    rw [Real.rpow_inv_natCast_pow (le_of_lt hTP) hm0]
    rw [mul_comm, div_mul_cancel₀ T (ne_of_gt hP)]
  · have h0 : ¬(P ≤ 0 ∨ T ≤ P ∨ n ≤ 0) := by
      push_neg
      exact ⟨hP, hT, hn⟩
    simp only [calculate_required_return, if_neg h0]
    exact ⟨_, rfl, rfl, abs_round2R_sub _⟩
  · intro Q U k h
    unfold calculate_required_return
    rw [if_pos (Or.inr (Or.inl h))]

/-- C8 witness: doubling 100 to 400 over 2 years (the exact rate is
100%). -/
theorem required_return_roundtrip_witness :
    lumpsumFVR 100 (required_rate 100 400 2) 2 = 400
    ∧ (∃ res, calculate_required_return 100 400 2 = .ok res
        ∧ res.required_return_percentage = round2R (required_rate 100 400 2)
        ∧ |res.required_return_percentage - required_rate 100 400 2| ≤ 1 / 200)
    ∧ (∀ (Q U : ℝ) (k : ℤ), U ≤ Q →
        calculate_required_return Q U k = .error "Invalid input values") :=
  required_return_roundtrip 100 400 2 (by norm_num) (by norm_num) (by norm_num)

/-- C10.  The `tax_type` argument of `calculate_tax_equity` has no
influence whatsoever on the result: any two argument strings produce
identical outputs, so the LTCG/STCG classification in the output depends
only on `holding_period_months` (and the gain sign). -/
theorem tax_type_no_influence (g : ℚ) (m : ℤ) (t1 t2 : String) :
    calculate_tax_equity g m t1 = calculate_tax_equity g m t2 := rfl

end MFCalc
